import Mathlib

/-!
Shallow embedding of the check-evaluation core of the GithubCICDChecker
repository (Rust, compiled to WASM): the data model (`src/models/check.rs`,
`src/models/score.rs`, `src/services/types.rs`), the repository-URL parsing
(`src/services/client.rs`), the individual check evaluators and their
dispatcher (`src/checks/runner.rs`), the check catalog
(`src/checks/definitions.rs`) and the orchestrating engine
(`src/checks/engine.rs`).

The GitHub REST client is a network boundary; it is embedded as a `Gateway`
record of pure repo-scoped fetch operations, each returning `Except ApiError`
exactly as the corresponding `GithubClient` method returns
`Result<_, ApiError>`.  Every evaluator is then a pure function of the
`Gateway`, mirroring the Rust source line by line.  Rust `u32`/`u16` counters
are embedded as `Nat` (the counted collections have at most 29 elements, far
from any overflow), and `f64` percentages as exact rationals `ℚ` (the numbers
divided are small naturals).
-/

/-! ## Data model (`src/services/types.rs`, `src/models/check.rs`) -/

/-- `CheckStatus` from `src/models/check.rs`. -/
inductive CheckStatus where
  | Passed
  | Failed
  | Warning
  | Skipped
deriving DecidableEq, Repr

/-- `CheckCategory` from `src/models/check.rs`. -/
inductive CheckCategory where
  | Fundamentals
  | Intermediate
  | Advanced
  | Bonus
deriving DecidableEq, Repr

/-- `Check` as used in `src/checks/definitions.rs` (id, name, description,
category). -/
structure Check where
  id : String
  name : String
  description : String
  category : CheckCategory
deriving DecidableEq, Repr

/-- `CheckResult` from `src/models/check.rs` (the ratio-model revision the
runner and engine use: no separate points field; `Warning` carries no point
argument in any `runner.rs` call site). -/
structure CheckResult where
  check : Check
  status : CheckStatus
  detail : String
  suggestion : Option String
deriving DecidableEq, Repr

/-- `CheckResult::passed` from `src/models/check.rs`. -/
def CheckResult.passed (check : Check) (detail : String) : CheckResult :=
  { check := check, status := CheckStatus.Passed, detail := detail, suggestion := none }

/-- `CheckResult::failed` from `src/models/check.rs`. -/
def CheckResult.failed (check : Check) (detail : String) (suggestion : String) : CheckResult :=
  { check := check, status := CheckStatus.Failed, detail := detail,
    suggestion := some suggestion }

/-- `CheckResult::warning` from `src/models/check.rs` (arity as called
throughout `runner.rs`: check, detail, suggestion). -/
def CheckResult.warning (check : Check) (detail : String) (suggestion : String) : CheckResult :=
  { check := check, status := CheckStatus.Warning, detail := detail,
    suggestion := some suggestion }

/-- `CheckResult::skipped` from `src/models/check.rs`. -/
def CheckResult.skipped (check : Check) (reason : String) : CheckResult :=
  { check := check, status := CheckStatus.Skipped, detail := reason, suggestion := none }

/-- `ApiError` from `src/services/types.rs` (`status: u16` embedded as `Nat`). -/
structure ApiError where
  status : Nat
  message : String
deriving DecidableEq, Repr

/-- The `Display` impl for `ApiError` in `src/services/types.rs`:
`"GitHub API error {status}: {message}"`. -/
def ApiError.display (e : ApiError) : String :=
  "GitHub API error " ++ toString e.status ++ ": " ++ e.message

/-- `RepoIdentifier` from `src/services/types.rs`. -/
structure RepoIdentifier where
  owner : String
  repo : String
deriving DecidableEq, Repr

/-- `RepoIdentifier::full_name` from `src/services/types.rs`. -/
def RepoIdentifier.full_name (r : RepoIdentifier) : String :=
  r.owner ++ "/" ++ r.repo

/-- `GithubContent` from `src/services/types.rs` (fields the runner reads). -/
structure GithubContent where
  name : String
  path : String
deriving DecidableEq, Repr

/-- `WorkflowRun` from `src/services/types.rs` (`id: u64` as `Nat`). -/
structure WorkflowRun where
  id : Nat
  name : Option String
  status : Option String
  conclusion : Option String
  head_branch : Option String
  created_at : Option String
  updated_at : Option String
  run_started_at : Option String
deriving DecidableEq, Repr

/-- `WorkflowRunsResponse` from `src/services/types.rs`. -/
structure WorkflowRunsResponse where
  total_count : Nat
  workflow_runs : List WorkflowRun
deriving DecidableEq, Repr

/-- `BranchProtection` from `src/services/types.rs`.  The two
`serde_json::Value` rule payloads are opaque to the runner (only presence is
inspected), embedded as `Option Unit`. -/
structure BranchProtection where
  required_pull_request_reviews : Option Unit
  enforce_admins : Option Bool
  required_status_checks : Option Unit

/-- `RepoMetadata` from `src/services/types.rs`. -/
structure RepoMetadata where
  name : String
  full_name : String
  default_branch : String
  «private» : Bool
  description : Option String
deriving DecidableEq, Repr

/-- `Release` from `src/services/types.rs` (`id: u64` as `Nat`). -/
structure Release where
  id : Nat
  tag_name : String
  name : Option String
  published_at : Option String
deriving DecidableEq, Repr

/-- `CommitDetail` from `src/services/types.rs`. -/
structure CommitDetail where
  message : String
deriving DecidableEq, Repr

/-- `CommitItem` from `src/services/types.rs`. -/
structure CommitItem where
  sha : String
  commit : CommitDetail
deriving DecidableEq, Repr

/-! ## The Gateway boundary (`src/services/client.rs`)

`GithubClient`'s methods perform HTTP requests; the check core only consumes
their typed results.  A `Gateway` value fixes, for one repository snapshot,
the outcome of each fetch operation the runner and engine call (each method is
already scoped to one repository, matching `CheckRunner` holding
`client, repo`). -/

structure Gateway where
  /-- `GithubClient::fetch_repo_metadata`. -/
  fetch_repo_metadata : Except ApiError RepoMetadata
  /-- `GithubClient::fetch_workflow_files` (contents of `.github/workflows/`). -/
  fetch_workflow_files : Except ApiError (List GithubContent)
  /-- `GithubClient::fetch_file_content`, keyed by path. -/
  fetch_file_content : String → Except ApiError String
  /-- `GithubClient::fetch_raw_file`, keyed by path. -/
  fetch_raw_file : String → Except ApiError String
  /-- `GithubClient::fetch_workflow_runs`, keyed by `per_page`. -/
  fetch_workflow_runs : Nat → Except ApiError WorkflowRunsResponse
  /-- `GithubClient::fetch_branch_protection`, keyed by branch. -/
  fetch_branch_protection : String → Except ApiError BranchProtection
  /-- `GithubClient::fetch_releases`, keyed by `per_page`. -/
  fetch_releases : Nat → Except ApiError (List Release)
  /-- `GithubClient::fetch_commits`, keyed by `per_page`. -/
  fetch_commits : Nat → Except ApiError (List CommitItem)
  /-- `GithubClient::file_exists`, keyed by path (tolerant of errors: `Bool`). -/
  file_exists : String → Bool

/-! ## Rust `str` primitives

The evaluators use a handful of `&str` operations (`contains`,
`starts_with`, `ends_with`, `to_lowercase`, `split`, `trim`,
`trim_end_matches`, `lines`).  They are embedded here as structurally
recursive functions over the underlying character list, so that every
evaluator computes by kernel reduction on concrete inputs. -/

/-- Does `pat` occur as a prefix somewhere in the list?  Worker for
`str_contains`. -/
def contains_chars (pat : List Char) : List Char → Bool
  | [] => pat.isEmpty
  | c :: rest => if pat.isPrefixOf (c :: rest) then true else contains_chars pat rest

/-- Rust `str::contains(pattern)`: substring containment. -/
def str_contains (hay pat : String) : Bool :=
  contains_chars pat.data hay.data

/-- Rust `str::starts_with(pattern)`. -/
def rust_starts_with (s pat : String) : Bool :=
  pat.data.isPrefixOf s.data

/-- Rust `str::ends_with(pattern)`. -/
def rust_ends_with (s pat : String) : Bool :=
  pat.data.isSuffixOf s.data

/-- ASCII lower-casing of one character (all the keyword matching in the
runner is over ASCII; Rust `to_lowercase` differs only on non-ASCII
uppercase letters, which no keyword list contains). -/
def char_to_lower (c : Char) : Char :=
  if 65 ≤ c.toNat && c.toNat ≤ 90 then Char.ofNat (c.toNat + 32) else c

/-- Rust `str::to_lowercase()`. -/
def rust_to_lower (s : String) : String :=
  String.mk (s.data.map char_to_lower)

/-- Whitespace as `str::trim` strips it (the ASCII cases). -/
def is_rust_whitespace (c : Char) : Bool :=
  c == ' ' || c == '\t' || c == '\n' || c == '\r'

/-- Rust `str::trim()`. -/
def rust_trim (s : String) : String :=
  String.mk (((s.data.dropWhile is_rust_whitespace).reverse.dropWhile
    is_rust_whitespace).reverse)

/-- If `sep` is a prefix of `l`, the remainder after it.  Worker for
`split_on_chars`. -/
def drop_prefix_chars : List Char → List Char → Option (List Char)
  | [], l => some l
  | _ :: _, [] => none
  | p :: ps, c :: cs => if p == c then drop_prefix_chars ps cs else none

/-- Fuel-driven split on a non-empty separator (leftmost, non-overlapping —
the semantics shared by Rust `str::split` and Lean `String.splitOn`).  Fuel
`l.length` always suffices: every step shortens the list. -/
def split_on_chars (sep : List Char) : Nat → List Char → List (List Char)
  | _, [] => [[]]
  | 0, l => [l]
  | fuel + 1, c :: rest =>
    match drop_prefix_chars sep (c :: rest) with
    | some rem => [] :: split_on_chars sep fuel rem
    | none =>
      match split_on_chars sep fuel rest with
      | [] => [[c]]
      | piece :: pieces => (c :: piece) :: pieces

/-- Rust `str::split(sep)` collected into a list (the runner and the URL
parser only split on non-empty separators). -/
def rust_split_on (s sep : String) : List String :=
  if sep.data.isEmpty then [s]
  else (split_on_chars sep.data s.data.length s.data).map String.mk

/-! ## Repository-URL parsing (`src/services/client.rs`) -/

/-- Fuel-driven worker for `trim_end_matches(".git")`: strips the suffix
`".git"` repeatedly.  Fuel `s.length` always suffices (each round removes four
characters). -/
def strip_dot_git_aux : Nat → String → String
  | 0, s => s
  | n + 1, s => if rust_ends_with s ".git" then strip_dot_git_aux n (s.dropRight 4) else s

/-- Rust `str::trim_end_matches(".git")` as used on the repo segment. -/
def strip_dot_git (s : String) : String :=
  strip_dot_git_aux s.length s

/-- The segment computation of `GithubClient::parse_repo_url`
(`src/services/client.rs` lines 20-31): trim whitespace, strip trailing `/`,
then split either the part after `"github.com/"` or the whole string on `/`.
`Error` is the `"Invalid GitHub URL"` case (`github.com` present but
`split("github.com/").nth(1)` empty). -/
def parse_parts (url : String) : Except String (List String) :=
  let u := String.mk (((rust_trim url).data.reverse.dropWhile (fun c => c == '/')).reverse)
  if str_contains u "github.com" then
    match (rust_split_on u "github.com/")[1]? with
    | none => Except.error "Invalid GitHub URL"
    | some after_github => Except.ok (rust_split_on after_github "/")
  else Except.ok (rust_split_on u "/")

/-- `GithubClient::parse_repo_url` from `src/services/client.rs`. -/
def parse_repo_url (url : String) : Except String RepoIdentifier :=
  match parse_parts url with
  | Except.error e => Except.error e
  | Except.ok parts =>
    if parts.length < 2 then Except.error "URL must contain owner/repo"
    else
      let owner := parts.headD ""
      let repo := strip_dot_git (parts.getD 1 "")
      if owner == "" || repo == "" then Except.error "Owner and repo name cannot be empty"
      else Except.ok { owner := owner, repo := repo }

/-! ## Conventional-commit classification (`src/checks/runner.rs` lines 6-32) -/

/-- Rust `str::lines()`: split on `'\n'`, drop one trailing empty piece (line
*terminator* semantics), strip a trailing `'\r'` from each line. -/
def rust_lines (s : String) : List String :=
  let pieces := rust_split_on s "\n"
  let pieces :=
    match pieces.reverse with
    | "" :: rest => rest.reverse
    | _ => pieces
  pieces.map (fun l => if rust_ends_with l "\r" then l.dropRight 1 else l)

/-- `is_conventional_commit` from `src/checks/runner.rs`: the subject (first
line) must start with one of eleven types, immediately followed by `": "`,
`"!: "`, or a `(scope)` closed by the first `')'` and then `": "` or `"!: "`. -/
def is_conventional_commit (message : String) : Bool :=
  let subject := (rust_lines message).headD message
  let kinds := ["feat", "fix", "docs", "style", "refactor", "test", "chore", "ci",
    "build", "perf", "revert"]
  kinds.any (fun p =>
    if rust_starts_with subject p then
      let rest := subject.drop p.length
      if rust_starts_with rest ": " || rust_starts_with rest "!: " then true
      else if rust_starts_with rest "(" then
        match rust_split_on rest ")" with
        | scope :: _ :: _ =>
          let after := rest.drop (scope.length + 1)
          rust_starts_with after ": " || rust_starts_with after "!: "
        | _ => false
      else false
    else false)

/-! ## Check evaluators (`src/checks/runner.rs`)

Each `CheckRunner` method becomes a pure function of the `Gateway`. -/

/-- `CheckRunner::aggregate_workflow_content` (`src/checks/runner.rs` lines
1042-1059): list the workflow directory (an error yields the empty string) and
concatenate the content of every `.yml`/`.yaml` file that fetches
successfully, each followed by a newline. -/
def aggregate_workflow_content (g : Gateway) : String :=
  match g.fetch_workflow_files with
  | Except.error _ => ""
  | Except.ok files =>
    files.foldl (fun content file =>
      if rust_ends_with file.name ".yml" || rust_ends_with file.name ".yaml" then
        match g.fetch_file_content file.path with
        | Except.ok file_content => content ++ file_content ++ "\n"
        | Except.error _ => content
      else content) ""

/-- `CheckRunner::check_pipeline_exists` (`src/checks/runner.rs` lines 83-114). -/
def check_pipeline_exists (g : Gateway) (check : Check) : CheckResult :=
  match g.fetch_workflow_files with
  | Except.ok files =>
    let yaml_files := files.filter (fun f => rust_ends_with f.name ".yml" || rust_ends_with f.name ".yaml")
    if yaml_files.isEmpty then
      CheckResult.failed check
        "Aucun fichier workflow YAML trouvé"
        "Créez un fichier .github/workflows/ci.yml pour votre pipeline CI/CD"
    else
      let names := yaml_files.map (fun f => f.name)
      CheckResult.passed check
        (toString names.length ++ " workflow(s) trouvé(s) : " ++ String.intercalate ", " names)
  | Except.error _ =>
    CheckResult.failed check
      "Dossier .github/workflows/ introuvable"
      "Créez le dossier .github/workflows/ et ajoutez un fichier YAML de pipeline"

/-- `CheckRunner::check_pipeline_green` (`src/checks/runner.rs` lines 116-150). -/
def check_pipeline_green (g : Gateway) (check : Check) : CheckResult :=
  match g.fetch_workflow_runs 5 with
  | Except.ok runs =>
    match runs.workflow_runs with
    | [] =>
      CheckResult.failed check
        "Aucun run trouvé sur la branche main"
        "Lancez votre pipeline au moins une fois sur main"
    | latest :: _ =>
      match latest.conclusion with
      | some conclusion =>
        if conclusion == "success" then
          CheckResult.passed check
            ("Dernier run '" ++ (latest.name.getD "unknown") ++ "' réussi")
        else
          CheckResult.failed check
            ("Dernier run terminé avec le statut : " ++ conclusion)
            "Corrigez les erreurs dans votre pipeline pour qu'il passe au vert"
      | none =>
        CheckResult.warning check
          "Dernier run encore en cours"
          "Attendez la fin du run et relancez l'analyse"
  | Except.error _ =>
    CheckResult.skipped check "Impossible de récupérer les runs (repo privé ou pas de workflows)"

/-- `CheckRunner::check_tests_exist` (`src/checks/runner.rs` lines 152-176). -/
def check_tests_exist (g : Gateway) (check : Check) : CheckResult :=
  let content_lower := rust_to_lower (aggregate_workflow_content g)
  let has_test_step := str_contains content_lower "test"
    || str_contains content_lower "pytest"
    || str_contains content_lower "jest"
    || str_contains content_lower "cargo test"
    || str_contains content_lower "go test"
    || str_contains content_lower "npm test"
    || str_contains content_lower "yarn test"
    || str_contains content_lower "phpunit"
    || str_contains content_lower "rspec"
    || str_contains content_lower "unittest"
  if has_test_step then
    CheckResult.passed check "Exécution de tests détectée dans la CI"
  else
    CheckResult.failed check
      "Aucune étape de test détectée dans les workflows"
      "Ajoutez une étape 'run: cargo test' ou équivalent dans votre pipeline"

/-- `CheckRunner::check_lint_in_ci` (`src/checks/runner.rs` lines 178-203). -/
def check_lint_in_ci (g : Gateway) (check : Check) : CheckResult :=
  let content_lower := rust_to_lower (aggregate_workflow_content g)
  let has_lint := str_contains content_lower "lint"
    || str_contains content_lower "eslint"
    || str_contains content_lower "clippy"
    || str_contains content_lower "flake8"
    || str_contains content_lower "pylint"
    || str_contains content_lower "rubocop"
    || str_contains content_lower "prettier"
    || str_contains content_lower "rustfmt"
    || str_contains content_lower "black"
    || str_contains content_lower "golangci-lint"
    || str_contains content_lower "fmt --check"
  if has_lint then
    CheckResult.passed check "Étape de lint/formatage détectée dans la CI"
  else
    CheckResult.failed check
      "Aucun linter ou formatteur détecté dans les workflows"
      "Ajoutez un step de lint (ex: clippy, eslint, flake8) dans votre pipeline"

/-- `CheckRunner::check_file_exists` (`src/checks/runner.rs` lines 205-215). -/
def check_file_exists (g : Gateway) (check : Check) (path : String) : CheckResult :=
  if g.file_exists path then
    CheckResult.passed check ("Fichier " ++ path ++ " trouvé")
  else
    CheckResult.failed check
      ("Fichier " ++ path ++ " introuvable")
      ("Ajoutez un fichier " ++ path ++ " à la racine du projet")

/-- `CheckRunner::check_docker_build_ci` (`src/checks/runner.rs` lines 217-236). -/
def check_docker_build_ci (g : Gateway) (check : Check) : CheckResult :=
  let content_lower := rust_to_lower (aggregate_workflow_content g)
  let has_docker_build := str_contains content_lower "docker build"
    || str_contains content_lower "docker/build-push-action"
    || str_contains content_lower "docker-build"
    || str_contains content_lower "docker compose"
    || str_contains content_lower "docker/setup-buildx"
  if has_docker_build then
    CheckResult.passed check "Build Docker détecté dans la CI"
  else
    CheckResult.failed check
      "Aucune étape de build Docker dans les workflows"
      "Ajoutez 'docker build' ou l'action 'docker/build-push-action' dans votre pipeline"

/-- `CheckRunner::check_no_secrets` (`src/checks/runner.rs` lines 238-269);
the patterns are matched on the raw (not lower-cased) workflow text. -/
def check_no_secrets (g : Gateway) (check : Check) : CheckResult :=
  let workflow_content := aggregate_workflow_content g
  let secret_patterns := ["AKIA", "sk-", "ghp_", "password: ", "passwd", "secret_key"]
  let found_secrets := secret_patterns.filter (fun p => str_contains workflow_content p)
  if found_secrets.isEmpty then
    CheckResult.passed check "Aucun secret hardcodé détecté dans les workflows"
  else
    CheckResult.failed check
      ("Patterns suspects détectés : " ++ String.intercalate ", " found_secrets)
      "Utilisez des GitHub Secrets ($\x7b\x7b secrets.MY_SECRET \x7d\x7d) au lieu de valeurs en dur"

/-- `CheckRunner::check_security_scan` (`src/checks/runner.rs` lines 273-311). -/
def check_security_scan (g : Gateway) (check : Check) : CheckResult :=
  let content_lower := rust_to_lower (aggregate_workflow_content g)
  let security_tools := ["trivy", "snyk", "bandit", "safety", "codeql", "semgrep",
    "sonarcloud", "sonarqube", "dependabot", "grype", "anchore", "checkov", "tfsec"]
  let found := security_tools.filter (fun t => str_contains content_lower t)
  if found.isEmpty then
    CheckResult.failed check
      "Aucun outil de scan de sécurité détecté"
      "Ajoutez Trivy, Snyk, CodeQL ou un autre scanner de sécurité dans votre pipeline"
  else
    CheckResult.passed check
      ("Outil(s) de sécurité détecté(s) : " ++ String.intercalate ", " found)

/-- `CheckRunner::check_coverage` (`src/checks/runner.rs` lines 313-347). -/
def check_coverage (g : Gateway) (check : Check) : CheckResult :=
  let content_lower := rust_to_lower (aggregate_workflow_content g)
  let coverage_tools := ["coverage", "codecov", "coveralls", "lcov", "tarpaulin",
    "jacoco", "istanbul", "nyc", "cobertura"]
  let found := coverage_tools.filter (fun t => str_contains content_lower t)
  if found.isEmpty then
    CheckResult.failed check
      "Aucune configuration de coverage détectée"
      "Ajoutez un outil de coverage (codecov, tarpaulin, istanbul) dans votre CI"
  else
    CheckResult.passed check ("Coverage détectée : " ++ String.intercalate ", " found)

/-- `CheckRunner::check_dependabot` (`src/checks/runner.rs` lines 349-376). -/
def check_dependabot (g : Gateway) (check : Check) : CheckResult :=
  let has_dependabot := g.file_exists ".github/dependabot.yml"
    || g.file_exists ".github/dependabot.yaml"
  let has_renovate := g.file_exists "renovate.json" || g.file_exists ".github/renovate.json"
  if has_dependabot then
    CheckResult.passed check "Dependabot configuré"
  else if has_renovate then
    CheckResult.passed check "Renovate configuré"
  else
    CheckResult.failed check
      "Ni Dependabot ni Renovate ne sont configurés"
      "Ajoutez .github/dependabot.yml pour automatiser les mises à jour de dépendances"

/-- `CheckRunner::check_branch_protection` (`src/checks/runner.rs` lines
380-410): `Passed` with required reviews, `Warning` without, `Failed` on a 404,
`Skipped` on any other error. -/
def check_branch_protection (g : Gateway) (check : Check) : CheckResult :=
  match g.fetch_branch_protection "main" with
  | Except.ok protection =>
    if protection.required_pull_request_reviews.isSome then
      CheckResult.passed check "Branche main protégée avec PR reviews obligatoires"
    else
      CheckResult.warning check
        "Protection de branche activée mais sans review obligatoire"
        "Activez 'Require pull request reviews' dans les settings de protection"
  | Except.error e =>
    if e.status == 404 then
      CheckResult.failed check
        "Aucune protection configurée sur main"
        "Activez la protection de branche dans Settings > Branches > Branch protection rules"
    else
      CheckResult.skipped check
        "Token requis pour vérifier la protection de branche (scope 'repo')"

/-- `CheckRunner::check_pipeline_speed` (`src/checks/runner.rs` lines 412-435). -/
def check_pipeline_speed (g : Gateway) (check : Check) : CheckResult :=
  match g.fetch_workflow_runs 10 with
  | Except.ok runs =>
    let completed_runs := runs.workflow_runs.filter (fun r =>
      r.conclusion.isSome && r.run_started_at.isSome && r.updated_at.isSome)
    if completed_runs.isEmpty then
      CheckResult.skipped check "Pas assez de runs pour évaluer la vitesse"
    else
      CheckResult.passed check
        (toString completed_runs.length
          ++ " runs récents analysés — vérifiez les durées dans l'onglet Actions de votre repo")
  | Except.error _ => CheckResult.skipped check "Impossible de récupérer les runs"

/-- `CheckRunner::check_multi_environment` (`src/checks/runner.rs` lines 437-471). -/
def check_multi_environment (g : Gateway) (check : Check) : CheckResult :=
  let content_lower := rust_to_lower (aggregate_workflow_content g)
  let env_indicators := ["environment:", "staging", "production", "prod", "dev",
    "deploy-staging", "deploy-prod"]
  let found := env_indicators.filter (fun e => str_contains content_lower e)
  let has_multi_env := decide (2 ≤ found.length)
  if has_multi_env then
    CheckResult.passed check
      ("Indicateurs multi-environnement détectés : " ++ String.intercalate ", " found)
  else
    CheckResult.failed check
      "Pas de gestion multi-environnement détectée"
      "Configurez des environnements GitHub (staging, production) dans votre pipeline"

/-- `CheckRunner::check_auto_deploy` (`src/checks/runner.rs` lines 473-518). -/
def check_auto_deploy (g : Gateway) (check : Check) : CheckResult :=
  let content_lower := rust_to_lower (aggregate_workflow_content g)
  let deploy_indicators := ["deploy", "publish", "release", "gh-pages", "pages", "aws",
    "azure", "gcloud", "heroku", "vercel", "netlify", "render", "fly.io"]
  let has_push_trigger := str_contains content_lower "on:\n  push:"
    || str_contains content_lower "on: [push"
  let has_deploy := deploy_indicators.any (fun d => str_contains content_lower d)
  if has_push_trigger && has_deploy then
    CheckResult.passed check "Déploiement automatique détecté sur push"
  else if has_deploy then
    CheckResult.warning check
      "Étape de déploiement trouvée mais pas déclenchée automatiquement"
      "Configurez un trigger 'on: push' sur la branche main pour le déploiement auto"
  else
    CheckResult.failed check
      "Aucune étape de déploiement détectée"
      "Ajoutez un job de déploiement automatique dans votre pipeline CI/CD"

/-- `CheckRunner::check_codeowners` (`src/checks/runner.rs` lines 522-542). -/
def check_codeowners (g : Gateway) (check : Check) : CheckResult :=
  let exists_ := g.file_exists "CODEOWNERS" || g.file_exists ".github/CODEOWNERS"
    || g.file_exists "docs/CODEOWNERS"
  if exists_ then
    CheckResult.passed check "Fichier CODEOWNERS trouvé"
  else
    CheckResult.failed check
      "Aucun fichier CODEOWNERS trouvé"
      "Ajoutez un fichier CODEOWNERS pour définir les propriétaires du code"

/-- `CheckRunner::check_tests_pass` (`src/checks/runner.rs` lines 546-592). -/
def check_tests_pass (g : Gateway) (check : Check) : CheckResult :=
  let content_lower := rust_to_lower (aggregate_workflow_content g)
  let has_test_step := str_contains content_lower "test"
    || str_contains content_lower "pytest"
    || str_contains content_lower "jest"
    || str_contains content_lower "cargo test"
    || str_contains content_lower "go test"
    || str_contains content_lower "npm test"
    || str_contains content_lower "yarn test"
    || str_contains content_lower "phpunit"
    || str_contains content_lower "rspec"
  if !has_test_step then
    CheckResult.failed check
      "Aucune étape de test détectée dans les workflows"
      "Ajoutez une étape de test dans votre pipeline avant de vérifier qu'ils passent"
  else
    match g.fetch_workflow_runs 5 with
    | Except.ok runs =>
      match runs.workflow_runs with
      | [] => CheckResult.skipped check "Aucun run trouvé sur main"
      | latest :: _ =>
        match latest.conclusion with
        | some c =>
          if c == "success" then
            CheckResult.passed check
              ("Pipeline '" ++ (latest.name.getD "CI")
                ++ "' vert — étapes de test détectées et exécutées")
          else
            CheckResult.failed check
              ("Pipeline terminé avec le statut '" ++ c
                ++ "' — les tests ont peut-être échoué")
              "Corrigez les tests en échec pour passer ce check"
        | none => CheckResult.skipped check "Run encore en cours"
    | Except.error _ => CheckResult.skipped check "Impossible de récupérer les runs"

/-- `CheckRunner::check_ghcr_published` (`src/checks/runner.rs` lines 594-625). -/
def check_ghcr_published (g : Gateway) (check : Check) : CheckResult :=
  let content_lower := rust_to_lower (aggregate_workflow_content g)
  let has_ghcr := str_contains content_lower "ghcr.io"
    || str_contains content_lower "github container registry"
    || (str_contains content_lower "docker/build-push-action"
        && str_contains content_lower "registry: ghcr")
  let has_push := str_contains content_lower "push: true"
    || str_contains content_lower "docker push"
    || str_contains content_lower "build-push-action"
  if has_ghcr && has_push then
    CheckResult.passed check "Publication vers ghcr.io détectée dans le pipeline"
  else if has_ghcr then
    CheckResult.warning check
      "Référence à ghcr.io trouvée mais pas d'étape de push explicite"
      "Assurez-vous d'utiliser 'docker/build-push-action' avec 'push: true' et 'registry: ghcr.io'"
  else
    CheckResult.failed check
      "Aucune publication vers GHCR détectée"
      "Ajoutez 'docker/build-push-action' avec 'registry: ghcr.io' pour publier votre image"

/-- `CheckRunner::check_quality_gate` (`src/checks/runner.rs` lines 627-660). -/
def check_quality_gate (g : Gateway) (check : Check) : CheckResult :=
  let content_lower := rust_to_lower (aggregate_workflow_content g)
  let quality_tools := ["sonarcloud", "sonarqube", "sonar-scanner", "sonarqube-scan-action",
    "codeclimate", "codacy", "codecov", "deepsource"]
  let found := quality_tools.filter (fun t => str_contains content_lower t)
  if found.isEmpty then
    CheckResult.failed check
      "Aucun outil de quality gate détecté"
      "Intégrez SonarCloud, CodeClimate ou Codacy dans votre pipeline pour contrôler la qualité du code"
  else
    CheckResult.passed check ("Quality gate détecté : " ++ String.intercalate ", " found)

/-- `CheckRunner::check_ci_cache` (`src/checks/runner.rs` lines 662-702). -/
def check_ci_cache (g : Gateway) (check : Check) : CheckResult :=
  let content_lower := rust_to_lower (aggregate_workflow_content g)
  let has_actions_cache := str_contains content_lower "actions/cache"
  let has_setup_cache := str_contains content_lower "cache: npm"
    || str_contains content_lower "cache: yarn"
    || str_contains content_lower "cache: pnpm"
    || str_contains content_lower "cache: pip"
    || str_contains content_lower "cache: poetry"
    || str_contains content_lower "cache: 'npm'"
    || str_contains content_lower "cache: 'pip'"
    || str_contains content_lower "cache: gradle"
    || str_contains content_lower "cache: maven"
  let has_docker_cache := str_contains content_lower "cache-from"
    || str_contains content_lower "cache-to"
    || str_contains content_lower "buildkit"
  let cache_type :=
    if has_actions_cache then "actions/cache"
    else if has_setup_cache then "cache intégré (setup-node/setup-python/…)"
    else if has_docker_cache then "Docker layer cache"
    else ""
  if !(cache_type == "") then
    CheckResult.passed check ("Cache CI détecté : " ++ cache_type)
  else
    CheckResult.failed check
      "Aucun mécanisme de cache dans le pipeline"
      "Ajoutez 'actions/cache' ou activez le cache dans 'actions/setup-node' (cache: npm) pour accélérer vos builds"

/-- `CheckRunner::check_ci_notifications` (`src/checks/runner.rs` lines 704-741). -/
def check_ci_notifications (g : Gateway) (check : Check) : CheckResult :=
  let content_lower := rust_to_lower (aggregate_workflow_content g)
  let notification_indicators := ["discord-webhook", "discord_webhook", "slack-webhook",
    "slack_webhook", "slackapi/", "8398a7/action-slack", "rtcamp/action-slack",
    "rjstone/discord-webhook", "appleboy/telegram-action", "act10ns/slack", "notify",
    "send-message"]
  let found := notification_indicators.filter (fun i => str_contains content_lower i)
  if found.isEmpty then
    CheckResult.failed check
      "Aucune notification CI détectée (Discord/Slack/Telegram)"
      "Ajoutez une étape de notification dans votre pipeline (ex: '8398a7/action-slack' ou 'rjstone/discord-webhook')"
  else
    CheckResult.passed check
      ("Notification CI configurée : " ++ String.intercalate ", " found)

/-- `CheckRunner::check_matrix_testing` (`src/checks/runner.rs` lines 743-776);
the detail-selection chain reads the raw (not lower-cased) workflow text. -/
def check_matrix_testing (g : Gateway) (check : Check) : CheckResult :=
  let workflow_content := aggregate_workflow_content g
  let has_matrix := (str_contains workflow_content "strategy:"
      && str_contains workflow_content "matrix:")
    || str_contains workflow_content "strategy:\n    matrix:"
  if has_matrix then
    let detail :=
      if str_contains workflow_content "node-version"
          || str_contains workflow_content "node_version" then
        "Matrice détectée — versions Node.js testées"
      else if str_contains workflow_content "python-version"
          || str_contains workflow_content "python_version" then
        "Matrice détectée — versions Python testées"
      else if str_contains workflow_content "rust"
          || str_contains workflow_content "toolchain" then
        "Matrice détectée — toolchains Rust testés"
      else if str_contains workflow_content "os:"
          || str_contains workflow_content "runs-on:" then
        "Matrice détectée — multi-OS"
      else "Stratégie de matrix détectée dans le pipeline"
    CheckResult.passed check detail
  else
    CheckResult.failed check
      "Aucune stratégie de matrix détectée"
      "Ajoutez 'strategy: matrix:' dans votre workflow pour tester sur plusieurs versions ou OS"

/-- `CheckRunner::check_reusable_workflows` (`src/checks/runner.rs` lines
778-798); both containment checks read the raw workflow text. -/
def check_reusable_workflows (g : Gateway) (check : Check) : CheckResult :=
  let workflow_content := aggregate_workflow_content g
  let defines_reusable := str_contains workflow_content "workflow_call:"
  let calls_reusable := str_contains workflow_content "uses: ./.github/workflows/"
    || str_contains workflow_content "uses: './.github/workflows/"
  if defines_reusable then
    CheckResult.passed check
      "Workflow réutilisable défini (workflow_call) — peut être invoqué par d'autres repos"
  else if calls_reusable then
    CheckResult.passed check
      "Workflow réutilisable appelé (uses: ./.github/workflows/) — bonne pratique DRY"
  else
    CheckResult.failed check
      "Aucun workflow réutilisable trouvé"
      "Créez un workflow avec 'on: workflow_call:' ou appelez-en un avec 'uses: ./.github/workflows/xxx.yml'"

/-- `CheckRunner::check_release_tagging` (`src/checks/runner.rs` lines
800-837): a non-empty release list passes; otherwise (empty list or error) a
keyword fallback over the workflow text decides `Warning`/`Failed`. -/
def check_release_tagging (g : Gateway) (check : Check) : CheckResult :=
  match g.fetch_releases 5 with
  | Except.ok (latest :: rest) =>
    CheckResult.passed check
      (toString (latest :: rest).length ++ " release(s) trouvée(s) — dernière : "
        ++ latest.tag_name)
  | _ =>
    let content_lower := rust_to_lower (aggregate_workflow_content g)
    if str_contains content_lower "release-please"
        || str_contains content_lower "semantic-release"
        || str_contains content_lower "create-release"
        || str_contains content_lower "actions/create-release"
        || str_contains content_lower "gh release create" then
      CheckResult.warning check
        "Outil de release détecté dans CI mais aucune release publiée encore"
        "Effectuez un premier merge sur main pour déclencher la création de release"
    else
      CheckResult.failed check
        "Aucune release ou tag GitHub trouvé"
        "Créez des releases GitHub pour versionner votre projet (ex: avec 'release-please' ou manuellement)"

/-- `CheckRunner::check_smoke_tests` (`src/checks/runner.rs` lines 839-877). -/
def check_smoke_tests (g : Gateway) (check : Check) : CheckResult :=
  let content_lower := rust_to_lower (aggregate_workflow_content g)
  let smoke_indicators := ["smoke", "e2e", "end-to-end", "end_to_end", "integration-test",
    "post-deploy", "post_deploy", "acceptance", "health-check", "healthcheck",
    "playwright", "cypress", "puppeteer"]
  let found := smoke_indicators.filter (fun i => str_contains content_lower i)
  if found.isEmpty then
    CheckResult.failed check
      "Aucun test smoke ou e2e détecté dans le pipeline"
      "Ajoutez des tests smoke après le déploiement (ex: curl sur /healthz, Playwright, Cypress)"
  else
    CheckResult.passed check
      ("Tests smoke/e2e détectés : " ++ String.intercalate ", " found)

/-- The merge-commit prefixes of `check_conventional_commits`
(`merge_prefix_re` in `src/checks/runner.rs` line 882). -/
def merge_prefixes : List String :=
  ["Merge pull request", "Merge branch", "Merge remote"]

/-- The merge-commit exclusion of `check_conventional_commits`
(`src/checks/runner.rs` lines 883-890): keep the commits whose message starts
with none of the `merge_prefixes`. -/
def non_merge_commits (commits : List CommitItem) : List CommitItem :=
  commits.filter (fun cm =>
    !(merge_prefixes.any (fun p => rust_starts_with cm.commit.message p)))

/-- The `conventional_count` of `check_conventional_commits`
(`src/checks/runner.rs` lines 896-899). -/
def conventional_count (commits : List CommitItem) : Nat :=
  (commits.filter (fun cm => is_conventional_commit cm.commit.message)).length

/-- The integer percentage `(conventional_count * 100) / non_merge.len()` of
`check_conventional_commits` (`src/checks/runner.rs` line 901). -/
def conventional_pct (commits : List CommitItem) : Nat :=
  conventional_count commits * 100 / commits.length

/-- `CheckRunner::check_conventional_commits` (`src/checks/runner.rs` lines
879-928): drop merge-prefixed commits, count Conventional-Commit subjects,
integer percentage, threshold 80. -/
def check_conventional_commits (g : Gateway) (check : Check) : CheckResult :=
  match g.fetch_commits 20 with
  | Except.ok (c :: cs) =>
    let non_merge := non_merge_commits (c :: cs)
    if non_merge.isEmpty then
      CheckResult.skipped check "Seuls des commits de merge trouvés"
    else
      if 80 ≤ conventional_pct non_merge then
        CheckResult.passed check
          (toString (conventional_count non_merge) ++ "/" ++ toString non_merge.length
            ++ " commits conventionnels (" ++ toString (conventional_pct non_merge) ++ "%)")
      else
        CheckResult.failed check
          (toString (conventional_count non_merge) ++ "/" ++ toString non_merge.length
            ++ " commits conventionnels (" ++ toString (conventional_pct non_merge) ++ "% < 80%)")
          "Respectez la convention Conventional Commits : feat:, fix:, chore:, ci:, docs:, etc."
  | _ => CheckResult.skipped check "Impossible de récupérer les commits"

/-- `CheckRunner::check_auto_changelog` (`src/checks/runner.rs` lines 930-978). -/
def check_auto_changelog (g : Gateway) (check : Check) : CheckResult :=
  let content_lower := rust_to_lower (aggregate_workflow_content g)
  let changelog_tools := ["release-please", "semantic-release", "conventional-changelog",
    "auto-changelog", "standard-version", "changesets"]
  let found := changelog_tools.filter (fun t => str_contains content_lower t)
  if !found.isEmpty then
    CheckResult.passed check
      ("Outil de changelog automatisé détecté : " ++ String.intercalate ", " found)
  else
    let fallback := CheckResult.failed check
      "Aucun outil de changelog automatisé trouvé"
      "Configurez 'release-please' ou 'semantic-release' dans votre pipeline pour générer un changelog automatique"
    match g.fetch_raw_file "CHANGELOG.md" with
    | Except.ok changelog =>
      let version_headers := ((rust_lines changelog).filter (fun l =>
        rust_starts_with l "## [" || rust_starts_with l "## v")).length
      if 2 ≤ version_headers then
        CheckResult.passed check
          ("CHANGELOG.md trouvé avec " ++ toString version_headers ++ " entrées de version")
      else fallback
    | Except.error _ => fallback

/-- `CheckRunner::check_rollback_strategy` (`src/checks/runner.rs` lines
980-1037). -/
def check_rollback_strategy (g : Gateway) (check : Check) : CheckResult :=
  let workflow_content := aggregate_workflow_content g
  let content_lower := rust_to_lower workflow_content
  let has_rollback_file := g.file_exists ".github/workflows/rollback.yml"
    || g.file_exists ".github/workflows/rollback.yaml"
    || g.file_exists ".github/workflows/revert.yml"
  if has_rollback_file then
    CheckResult.passed check "Workflow de rollback dédié détecté"
  else if str_contains content_lower "rollback"
      || str_contains content_lower "undo-deploy"
      || str_contains content_lower "undo_deploy" then
    CheckResult.passed check "Mécanisme de rollback détecté dans les workflows"
  else if str_contains workflow_content "workflow_dispatch:"
      && (str_contains content_lower "revert" || str_contains content_lower "rollback") then
    CheckResult.passed check "workflow_dispatch avec option de revert détecté"
  else if str_contains workflow_content "workflow_dispatch:" then
    CheckResult.warning check
      "workflow_dispatch détecté (redéploiement manuel possible) mais pas de rollback explicite"
      "Ajoutez un workflow dédié au rollback ou un input 'rollback' dans workflow_dispatch"
  else
    CheckResult.failed check
      "Aucune stratégie de rollback détectée"
      "Créez un workflow .github/workflows/rollback.yml ou ajoutez un trigger workflow_dispatch avec option de rollback"

/-- `CheckRunner::run_check` (`src/checks/runner.rs` lines 46-79): dispatch by
check id; unknown ids resolve to a `Skipped` result. -/
def run_check (g : Gateway) (check : Check) : CheckResult :=
  match check.id with
  | "pipeline_exists" => check_pipeline_exists g check
  | "pipeline_green" => check_pipeline_green g check
  | "tests_exist" => check_tests_exist g check
  | "lint_in_ci" => check_lint_in_ci g check
  | "dockerfile_exists" => check_file_exists g check "Dockerfile"
  | "docker_build_ci" => check_docker_build_ci g check
  | "no_secrets_in_code" => check_no_secrets g check
  | "readme_exists" => check_file_exists g check "README.md"
  | "security_scan" => check_security_scan g check
  | "coverage_configured" => check_coverage g check
  | "dependabot_configured" => check_dependabot g check
  | "branch_protection" => check_branch_protection g check
  | "pipeline_fast" => check_pipeline_speed g check
  | "multi_environment" => check_multi_environment g check
  | "auto_deploy" => check_auto_deploy g check
  | "codeowners_exists" => check_codeowners g check
  | "gitignore_exists" => check_file_exists g check ".gitignore"
  | "tests_pass" => check_tests_pass g check
  | "ghcr_published" => check_ghcr_published g check
  | "quality_gate" => check_quality_gate g check
  | "ci_cache" => check_ci_cache g check
  | "ci_notifications" => check_ci_notifications g check
  | "matrix_testing" => check_matrix_testing g check
  | "reusable_workflows" => check_reusable_workflows g check
  | "release_tagging" => check_release_tagging g check
  | "smoke_tests" => check_smoke_tests g check
  | "conventional_commits" => check_conventional_commits g check
  | "auto_changelog" => check_auto_changelog g check
  | "rollback_strategy" => check_rollback_strategy g check
  | _ => CheckResult.skipped check "Check non implémenté"

/-- The check ids `run_check` dispatches to an implemented evaluator
(the 29 non-default arms of the `match` above). -/
def implemented_check_ids : List String :=
  ["pipeline_exists", "pipeline_green", "tests_exist", "lint_in_ci", "dockerfile_exists",
   "docker_build_ci", "no_secrets_in_code", "readme_exists", "security_scan",
   "coverage_configured", "dependabot_configured", "branch_protection", "pipeline_fast",
   "multi_environment", "auto_deploy", "codeowners_exists", "gitignore_exists",
   "tests_pass", "ghcr_published", "quality_gate", "ci_cache", "ci_notifications",
   "matrix_testing", "reusable_workflows", "release_tagging", "smoke_tests",
   "conventional_commits", "auto_changelog", "rollback_strategy"]

/-! ## Check catalog (`src/checks/definitions.rs`) -/

/-- `all_checks` from `src/checks/definitions.rs`: the static ordered catalog. -/
def all_checks : List Check :=
  [{ id := "pipeline_exists", name := "Pipeline CI existe",
     description := "Au moins un workflow YAML présent dans .github/workflows/",
     category := CheckCategory.Fundamentals },
   { id := "pipeline_green", name := "Pipeline vert sur main",
     description := "Le dernier run du workflow sur main est en succès",
     category := CheckCategory.Fundamentals },
   { id := "tests_exist", name := "Tests présents",
     description := "Des fichiers de test existent et sont exécutés dans la CI",
     category := CheckCategory.Fundamentals },
   { id := "tests_pass", name := "Tests passent dans CI",
     description := "Le pipeline est vert ET une étape de test a été détectée et exécutée",
     category := CheckCategory.Fundamentals },
   { id := "lint_in_ci", name := "Lint dans la CI",
     description := "Un step de lint/format est configuré dans le pipeline",
     category := CheckCategory.Fundamentals },
   { id := "dockerfile_exists", name := "Dockerfile présent",
     description := "Un Dockerfile existe à la racine du projet",
     category := CheckCategory.Fundamentals },
   { id := "docker_build_ci", name := "Docker build dans CI",
     description := "Le pipeline inclut une étape de build Docker",
     category := CheckCategory.Fundamentals },
   { id := "no_secrets_in_code", name := "Pas de secrets dans le code",
     description := "Aucun secret hardcodé détecté dans les fichiers source",
     category := CheckCategory.Fundamentals },
   { id := "readme_exists", name := "README présent",
     description := "Un fichier README.md existe à la racine",
     category := CheckCategory.Fundamentals },
   { id := "security_scan", name := "Scan de sécurité",
     description := "Un outil de scan sécurité (Trivy, Snyk, Bandit, etc.) dans la CI",
     category := CheckCategory.Intermediate },
   { id := "coverage_configured", name := "Coverage configurée",
     description := "La couverture de code est configurée dans le pipeline",
     category := CheckCategory.Intermediate },
   { id := "dependabot_configured", name := "Dependabot / Renovate",
     description := "Mise à jour automatique des dépendances configurée",
     category := CheckCategory.Intermediate },
   { id := "ghcr_published", name := "Image publiée sur GHCR",
     description := "L'image Docker est poussée sur GitHub Container Registry (ghcr.io)",
     category := CheckCategory.Intermediate },
   { id := "quality_gate", name := "Quality gate (SonarCloud, etc.)",
     description := "Un outil d'analyse qualité (SonarCloud, CodeClimate, Codacy) est intégré dans la CI",
     category := CheckCategory.Intermediate },
   { id := "branch_protection", name := "Protection de branche",
     description := "La branche main est protégée avec PR obligatoire",
     category := CheckCategory.Advanced },
   { id := "pipeline_fast", name := "Pipeline rapide (< 5 min)",
     description := "La durée moyenne des derniers runs est inférieure à 5 minutes",
     category := CheckCategory.Advanced },
   { id := "multi_environment", name := "Multi-environnements",
     description := "La CI/CD gère plusieurs environnements (staging, prod, etc.)",
     category := CheckCategory.Advanced },
   { id := "auto_deploy", name := "Déploiement automatique",
     description := "Un déploiement automatique est configuré sur push/merge main",
     category := CheckCategory.Advanced },
   { id := "ci_cache", name := "Cache CI optimisé",
     description := "Le pipeline utilise un mécanisme de cache (actions/cache, Docker layer cache, etc.) pour accélérer les builds",
     category := CheckCategory.Advanced },
   { id := "ci_notifications", name := "Notifications CI (Discord/Slack)",
     description := "Des notifications sont envoyées sur Discord ou Slack en cas de succès ou d'échec du pipeline",
     category := CheckCategory.Advanced },
   { id := "matrix_testing", name := "Tests en matrice (multi-version)",
     description := "Le pipeline utilise une stratégie de matrix pour tester sur plusieurs versions ou OS",
     category := CheckCategory.Advanced },
   { id := "reusable_workflows", name := "Workflows réutilisables",
     description := "Le dépôt utilise ou définit des workflows réutilisables (workflow_call)",
     category := CheckCategory.Advanced },
   { id := "codeowners_exists", name := "CODEOWNERS présent",
     description := "Un fichier CODEOWNERS est configuré",
     category := CheckCategory.Bonus },
   { id := "gitignore_exists", name := ".gitignore présent",
     description := "Un fichier .gitignore est configuré pour le projet",
     category := CheckCategory.Bonus },
   { id := "release_tagging", name := "Releases / Tags GitHub",
     description := "Au moins une release ou un tag GitHub existe pour versionner le projet",
     category := CheckCategory.Bonus },
   { id := "smoke_tests", name := "Tests smoke / e2e post-déploiement",
     description := "Des tests smoke ou e2e sont exécutés après le déploiement pour valider l'environnement",
     category := CheckCategory.Bonus },
   { id := "conventional_commits", name := "Commits conventionnels (≥ 80%)",
     description := "Au moins 80% des commits suivent la convention Conventional Commits (feat:, fix:, chore:, etc.)",
     category := CheckCategory.Bonus },
   { id := "auto_changelog", name := "Changelog automatisé",
     description := "Un outil de génération de changelog (release-please, semantic-release, etc.) est configuré",
     category := CheckCategory.Bonus },
   { id := "rollback_strategy", name := "Stratégie de rollback",
     description := "Le dépôt dispose d'un mécanisme de rollback (workflow dédié, workflow_dispatch, revert automatique)",
     category := CheckCategory.Bonus }]

/-! ## Score model (`src/models/score.rs`) -/

/-- `CategoryScore` from `src/models/score.rs` (ratio model: `passed`/`total`
are `u32` counters, embedded as `Nat`). -/
structure CategoryScore where
  category : CheckCategory
  passed : Nat
  total : Nat
  results : List CheckResult
deriving DecidableEq, Repr

/-- `CategoryScore::percentage` from `src/models/score.rs`; the `f64`
division is embedded as exact rational arithmetic, with the same explicit
zero-total guard as the source. -/
def CategoryScore.percentage (cs : CategoryScore) : ℚ :=
  if cs.total = 0 then 0 else (cs.passed : ℚ) / (cs.total : ℚ) * 100

/-- `ScoreReport` from `src/models/score.rs` (ratio model). -/
structure ScoreReport where
  repository : String
  passed : Nat
  total : Nat
  categories : List CategoryScore
  analyzed_at : String
deriving DecidableEq, Repr

/-- `ScoreReport::percentage` from `src/models/score.rs`, embedded like
`CategoryScore.percentage`. -/
def ScoreReport.percentage (r : ScoreReport) : ℚ :=
  if r.total = 0 then 0 else (r.passed : ℚ) / (r.total : ℚ) * 100

/-! ## Engine (`src/checks/engine.rs`) -/

/-- The `matches!(r.status, Passed | Warning)` filter of
`CheckEngine::analyze` (`src/checks/engine.rs` line 62): warnings count as
passes. -/
def status_counts_as_pass (r : CheckResult) : Bool :=
  match r.status with
  | CheckStatus.Passed => true
  | CheckStatus.Warning => true
  | _ => false

/-- The `!matches!(r.status, Skipped)` filter of `CheckEngine::analyze`
(`src/checks/engine.rs` line 66): skipped checks are excluded from the total. -/
def status_evaluated (r : CheckResult) : Bool :=
  match r.status with
  | CheckStatus.Skipped => false
  | _ => true

/-- The fixed `category_order` array of `CheckEngine::analyze`
(`src/checks/engine.rs` lines 46-51). -/
def category_order : List CheckCategory :=
  [CheckCategory.Fundamentals, CheckCategory.Intermediate,
   CheckCategory.Advanced, CheckCategory.Bonus]

/-- One iteration of the category loop of `CheckEngine::analyze`
(`src/checks/engine.rs` lines 57-78).  The source groups results into a
`HashMap` keyed by category (`entry(...).or_default().push(result)`, lines
37-43) and then removes each category's bucket in `category_order`; since
`push` preserves the original result order, the removed bucket is exactly the
order-preserving filter of the result list by that category. -/
def category_score (results : List CheckResult) (cat : CheckCategory) : CategoryScore :=
  let cat_results := results.filter (fun r => r.check.category == cat)
  { category := cat
    passed := (cat_results.filter status_counts_as_pass).length
    total := (cat_results.filter status_evaluated).length
    results := cat_results }

/-- The aggregation of `CheckEngine::analyze` (`src/checks/engine.rs` lines
36-86) applied to the already-collected per-check results: the category loop
builds the four `CategoryScore`s while accumulating `global_passed` and
`global_total` (`+=` per category, embedded as left folds over the built
categories), and stamps the report.  `analyzed_at` comes from
`js_sys::Date::new_0()` in the source — a wall-clock read — and is passed in
as the `now` argument. -/
def build_report (repo : RepoIdentifier) (now : String) (results : List CheckResult) :
    ScoreReport :=
  let categories := category_order.map (category_score results)
  { repository := repo.full_name
    passed := categories.foldl (fun acc cs => acc + cs.passed) 0
    total := categories.foldl (fun acc cs => acc + cs.total) 0
    categories := categories
    analyzed_at := now }

/-- `CheckEngine::analyze` (`src/checks/engine.rs` lines 20-87) generalized
over the catalog list it iterates (the source's check loop, lines 30-34, runs
over `all_checks()`): verify the repository metadata fetch succeeds — any
error aborts with the formatted message and no report — then run every check
and aggregate. -/
def analyze_with (checks : List Check) (g : Gateway) (repo : RepoIdentifier)
    (now : String) : Except String ScoreReport :=
  match g.fetch_repo_metadata with
  | Except.error e => Except.error ("Impossible d'accéder au repo : " ++ e.display)
  | Except.ok _ => Except.ok (build_report repo now (checks.map (run_check g)))

/-- `CheckEngine::analyze` proper: the catalog is `all_checks`. -/
def analyze (g : Gateway) (repo : RepoIdentifier) (now : String) :
    Except String ScoreReport :=
  analyze_with all_checks g repo now

/-! ## Concrete repository snapshots

Closed `Gateway` values used to evaluate the development on concrete inputs:
`gw0` answers every data fetch with a transport error (metadata succeeds),
`gw_bad` cannot even fetch the repository metadata, and `gw_commits` serves a
fixed commit list. -/

/-- A transport-level error (status 0, as `GithubClient` reports network
failures). -/
def err_net : ApiError := { status := 0, message := "Network error: connection reset" }

/-- A `403` error (missing token scope). -/
def err_403 : ApiError := { status := 403, message := "HTTP 403: forbidden" }

/-- A `404` error. -/
def err_404 : ApiError := { status := 404, message := "HTTP 404: Not Found" }

/-- Metadata of the sample repository. -/
def md0 : RepoMetadata :=
  { name := "r", full_name := "o/r", default_branch := "main", «private» := false,
    description := none }

/-- The sample repository identifier. -/
def repo0 : RepoIdentifier := { owner := "o", repo := "r" }

/-- Snapshot whose metadata fetch succeeds and every other fetch fails with a
network error. -/
def gw0 : Gateway :=
  { fetch_repo_metadata := Except.ok md0
    fetch_workflow_files := Except.error err_net
    fetch_file_content := fun _ => Except.error err_net
    fetch_raw_file := fun _ => Except.error err_net
    fetch_workflow_runs := fun _ => Except.error err_net
    fetch_branch_protection := fun _ => Except.error err_net
    fetch_releases := fun _ => Except.error err_net
    fetch_commits := fun _ => Except.error err_net
    file_exists := fun _ => false }

/-- Snapshot whose repository-metadata fetch fails with a 404. -/
def gw_bad : Gateway :=
  { gw0 with fetch_repo_metadata := Except.error err_404 }

/-- A commit list item with the given message. -/
def mk_commit (m : String) : CommitItem := { sha := "s", commit := { message := m } }

/-- The commit history of §8 of the specification: one merge commit, two
conventional commits, one free-form commit. -/
def c6_commits : List CommitItem :=
  [mk_commit "feat: a", mk_commit "Merge branch 'x'", mk_commit "fix(core)!: b",
   mk_commit "update stuff"]

/-- Snapshot serving `c6_commits` as the commit history. -/
def gw_commits : Gateway :=
  { gw0 with fetch_commits := fun _ => Except.ok c6_commits }

/-- The catalog entry for the conventional-commit check. -/
def cc_check : Check :=
  { id := "conventional_commits", name := "Commits conventionnels (≥ 80%)",
    description := "Au moins 80% des commits suivent la convention Conventional Commits (feat:, fix:, chore:, etc.)",
    category := CheckCategory.Bonus }

/-- The catalog entry for the tests-exist check. -/
def te_check : Check :=
  { id := "tests_exist", name := "Tests présents",
    description := "Des fichiers de test existent et sont exécutés dans la CI",
    category := CheckCategory.Fundamentals }

/-- The catalog entry for the pipeline-exists check. -/
def pe_check : Check :=
  { id := "pipeline_exists", name := "Pipeline CI existe",
    description := "Au moins un workflow YAML présent dans .github/workflows/",
    category := CheckCategory.Fundamentals }

/-- A check id the dispatcher does not implement. -/
def unknown_check : Check :=
  { id := "unknown_check", name := "Unknown", description := "Pas encore implémenté",
    category := CheckCategory.Bonus }

/-- Placeholder report (never produced by `analyze`; only a `getD` default). -/
def junk_report : ScoreReport :=
  { repository := "", passed := 0, total := 0, categories := [], analyzed_at := "" }

/-- Placeholder category score (only a `getD` default). -/
def junk_category : CategoryScore :=
  { category := CheckCategory.Fundamentals, passed := 0, total := 0, results := [] }

/-- The report `analyze` produces on the `gw0` snapshot. -/
def rep0 : ScoreReport :=
  match analyze gw0 repo0 "2026-01-01T00:00:00Z" with
  | Except.ok r => r
  | Except.error _ => junk_report

/-- The first (Fundamentals) category score of `rep0`. -/
def cs0 : CategoryScore := rep0.categories.headD junk_category

/-! ## Helper lemmas -/

/-- Every result lies in exactly one of the four categories, so the four
per-category filters partition any filtered count. -/
lemma filter_category_partition (p : CheckResult → Bool) (rs : List CheckResult) :
    ((rs.filter (fun r => r.check.category == CheckCategory.Fundamentals)).filter p).length
      + ((rs.filter (fun r => r.check.category == CheckCategory.Intermediate)).filter p).length
      + ((rs.filter (fun r => r.check.category == CheckCategory.Advanced)).filter p).length
      + ((rs.filter (fun r => r.check.category == CheckCategory.Bonus)).filter p).length
      = (rs.filter p).length := by
  simp only [← List.countP_eq_length_filter, List.countP_filter]
  induction rs with
  | nil => simp
  | cons r rs ih =>
    simp only [List.countP_cons]
    cases hc : r.check.category <;> cases hp : p r <;>
      simp [hc, hp] <;> omega

/-- A result counted as a pass (`Passed`/`Warning`) is counted as evaluated
(not `Skipped`), so the pass count never exceeds the evaluated count. -/
lemma passes_le_evaluated (rs : List CheckResult) :
    (rs.filter status_counts_as_pass).length ≤ (rs.filter status_evaluated).length := by
  simp only [← List.countP_eq_length_filter]
  apply List.countP_mono_left
  intro r _ hr
  cases h : r.status <;>
    simp [status_counts_as_pass, status_evaluated, h] at hr ⊢

/-- Bounds of the guarded rational percentage `passed/total*100`. -/
lemma pct_aux (p t : Nat) (hpt : p ≤ t) :
    0 ≤ (if t = 0 then (0 : ℚ) else (p : ℚ) / (t : ℚ) * 100) ∧
    (if t = 0 then (0 : ℚ) else (p : ℚ) / (t : ℚ) * 100) ≤ 100 := by
  by_cases ht : t = 0
  · simp [ht]
  · have ht' : 0 < t := Nat.pos_of_ne_zero ht
    have h1 : (p : ℚ) / t ≤ 1 := by
      rw [div_le_one (by exact_mod_cast ht')]
      exact_mod_cast hpt
    have h0 : (0 : ℚ) ≤ (p : ℚ) / t := by positivity
    constructor
    · simp only [if_neg ht]; nlinarith
    · simp only [if_neg ht]; nlinarith

/-! ## The claims -/

/-- C5: the branch-protection check is `Passed` exactly when the fetched
protection rules contain a required-pull-request-reviews rule, `Warning` when
protection is present without that rule, `Failed` on a 404 from the Gateway,
and `Skipped` on any other Gateway error. -/
theorem branch_protection_status_spec (g : Gateway) (c : Check) :
    (check_branch_protection g c).status =
      match g.fetch_branch_protection "main" with
      | Except.ok protection =>
        if protection.required_pull_request_reviews.isSome then CheckStatus.Passed
        else CheckStatus.Warning
      | Except.error e =>
        if e.status == 404 then CheckStatus.Failed else CheckStatus.Skipped := by
  unfold check_branch_protection
  cases h : g.fetch_branch_protection "main" with
  | ok protection =>
    by_cases hp : protection.required_pull_request_reviews.isSome <;>
      simp [hp, CheckResult.passed, CheckResult.warning]
  | error e =>
    by_cases h4 : e.status == 404 <;>
      simp [h4, CheckResult.failed, CheckResult.skipped]

/-- C7: the pipeline-green check inspects the most recent workflow run's
conclusion: `"success"` yields `Passed`, any other non-null conclusion yields
`Failed`, a null conclusion (run in progress) yields `Warning`, an empty run
list yields `Failed`, and a Gateway error yields `Skipped`. -/
theorem pipeline_green_status_spec (g : Gateway) (c : Check) :
    (check_pipeline_green g c).status =
      match g.fetch_workflow_runs 5 with
      | Except.error _ => CheckStatus.Skipped
      | Except.ok runs =>
        match runs.workflow_runs with
        | [] => CheckStatus.Failed
        | latest :: _ =>
          match latest.conclusion with
          | none => CheckStatus.Warning
          | some conclusion =>
            if conclusion == "success" then CheckStatus.Passed else CheckStatus.Failed := by
  unfold check_pipeline_green
  cases h : g.fetch_workflow_runs 5 with
  | error e => simp [CheckResult.skipped]
  | ok runs =>
    cases hr : runs.workflow_runs with
    | nil => simp [hr, CheckResult.failed]
    | cons latest rest =>
      cases hc : latest.conclusion with
      | none => simp [hr, hc, CheckResult.warning]
      | some conclusion =>
        by_cases hs : conclusion = "success" <;>
          simp [hr, hc, hs, CheckResult.passed, CheckResult.failed]

/-- C1: in every `ScoreReport` produced by `analyze` the categories are the
four of `category_order`, each category's `passed` field counts exactly its
results with status `Passed` or `Warning`, its `total` field counts exactly
its results with status other than `Skipped`, and the global `total` likewise
counts only non-`Skipped` results — a `Skipped` result contributes to no
denominator at any level. -/
theorem analyze_category_counts (g : Gateway) (repo : RepoIdentifier) (now : String)
    (rep : ScoreReport) (h : analyze g repo now = Except.ok rep)
    (cs : CategoryScore) (hcs : cs ∈ rep.categories) :
    cs.passed = (cs.results.filter status_counts_as_pass).length ∧
    cs.total = (cs.results.filter status_evaluated).length ∧
    rep.categories.map CategoryScore.category = category_order ∧
    rep.total = ((all_checks.map (run_check g)).filter status_evaluated).length := by
  unfold analyze analyze_with at h
  cases hm : g.fetch_repo_metadata with
  | error e => rw [hm] at h; exact absurd h (by simp)
  | ok md =>
    rw [hm, Except.ok.injEq] at h
    subst h
    have hmem : cs ∈ category_order.map (category_score (all_checks.map (run_check g))) := by
      simpa [build_report] using hcs
    rcases List.mem_map.1 hmem with ⟨cat, hcat, hcseq⟩
    subst hcseq
    refine ⟨rfl, rfl, ?_, ?_⟩
    · simp [build_report, category_order, category_score]
    · have hpart := filter_category_partition status_evaluated (all_checks.map (run_check g))
      simp only [build_report, category_order, category_score, List.map_cons, List.map_nil,
        List.foldl_cons, List.foldl_nil]
      omega

/-- C1 witness: the aggregation counts hold concretely for the Fundamentals
category of the report computed on the `gw0` snapshot. -/
theorem analyze_category_counts_witness :
    cs0.passed = (cs0.results.filter status_counts_as_pass).length ∧
    cs0.total = (cs0.results.filter status_evaluated).length ∧
    rep0.categories.map CategoryScore.category = category_order ∧
    rep0.total = ((all_checks.map (run_check gw0)).filter status_evaluated).length :=
  analyze_category_counts gw0 repo0 "2026-01-01T00:00:00Z" rep0 rfl cs0 (by decide)

/-- C2: in every `ScoreReport` returned by `analyze`, the report's `passed`
field is the sum of the `passed` fields of its categories and its `total`
field is the sum of their `total` fields. -/
theorem analyze_global_sums (g : Gateway) (repo : RepoIdentifier) (now : String)
    (rep : ScoreReport) (h : analyze g repo now = Except.ok rep) :
    rep.passed = (rep.categories.map CategoryScore.passed).sum ∧
    rep.total = (rep.categories.map CategoryScore.total).sum := by
  unfold analyze analyze_with at h
  cases hm : g.fetch_repo_metadata with
  | error e => rw [hm] at h; exact absurd h (by simp)
  | ok md =>
    rw [hm, Except.ok.injEq] at h
    subst h
    constructor <;>
      · simp only [build_report, category_order, category_score, List.map_cons, List.map_nil,
          List.foldl_cons, List.foldl_nil, List.sum_cons, List.sum_nil]
        omega

/-- C2 witness: the global sums hold concretely for the report computed on
the `gw0` snapshot. -/
theorem analyze_global_sums_witness :
    rep0.passed = (rep0.categories.map CategoryScore.passed).sum ∧
    rep0.total = (rep0.categories.map CategoryScore.total).sum :=
  analyze_global_sums gw0 repo0 "2026-01-01T00:00:00Z" rep0 rfl

/-- C10: in every `ScoreReport` produced by `analyze`, each category score
and the report satisfy `passed ≤ total`, both `percentage` values lie in
`[0, 100]`, and a zero total yields exactly `0` instead of a division by
zero. -/
theorem analyze_percentage_bounds (g : Gateway) (repo : RepoIdentifier) (now : String)
    (rep : ScoreReport) (h : analyze g repo now = Except.ok rep)
    (cs : CategoryScore) (hcs : cs ∈ rep.categories) :
    (cs.passed ≤ cs.total ∧ 0 ≤ cs.percentage ∧ cs.percentage ≤ 100 ∧
      (cs.total = 0 → cs.percentage = 0)) ∧
    (rep.passed ≤ rep.total ∧ 0 ≤ rep.percentage ∧ rep.percentage ≤ 100 ∧
      (rep.total = 0 → rep.percentage = 0)) := by
  unfold analyze analyze_with at h
  cases hm : g.fetch_repo_metadata with
  | error e => rw [hm] at h; exact absurd h (by simp)
  | ok md =>
    rw [hm, Except.ok.injEq] at h
    subst h
    constructor
    · have hmem : cs ∈ category_order.map (category_score (all_checks.map (run_check g))) := by
        simpa [build_report] using hcs
      rcases List.mem_map.1 hmem with ⟨cat, hcat, hcseq⟩
      subst hcseq
      have hle : (category_score (all_checks.map (run_check g)) cat).passed
          ≤ (category_score (all_checks.map (run_check g)) cat).total :=
        passes_le_evaluated _
      refine ⟨hle, ?_, ?_, ?_⟩
      · exact (pct_aux _ _ hle).1
      · exact (pct_aux _ _ hle).2
      · intro h0; simp [CategoryScore.percentage, h0]
    · have hle : (build_report repo now (all_checks.map (run_check g))).passed
          ≤ (build_report repo now (all_checks.map (run_check g))).total := by
        have h1 := passes_le_evaluated
          ((all_checks.map (run_check g)).filter
            (fun r => r.check.category == CheckCategory.Fundamentals))
        have h2 := passes_le_evaluated
          ((all_checks.map (run_check g)).filter
            (fun r => r.check.category == CheckCategory.Intermediate))
        have h3 := passes_le_evaluated
          ((all_checks.map (run_check g)).filter
            (fun r => r.check.category == CheckCategory.Advanced))
        have h4 := passes_le_evaluated
          ((all_checks.map (run_check g)).filter
            (fun r => r.check.category == CheckCategory.Bonus))
        simp only [build_report, category_order, category_score, List.map_cons, List.map_nil,
          List.foldl_cons, List.foldl_nil]
        omega
      refine ⟨hle, ?_, ?_, ?_⟩
      · exact (pct_aux _ _ hle).1
      · exact (pct_aux _ _ hle).2
      · intro h0; simp [ScoreReport.percentage, h0]

/-- C10 witness: the bounds hold concretely for the report computed on the
`gw0` snapshot and its Fundamentals category. -/
theorem analyze_percentage_bounds_witness :
    (cs0.passed ≤ cs0.total ∧ 0 ≤ cs0.percentage ∧ cs0.percentage ≤ 100 ∧
      (cs0.total = 0 → cs0.percentage = 0)) ∧
    (rep0.passed ≤ rep0.total ∧ 0 ≤ rep0.percentage ∧ rep0.percentage ≤ 100 ∧
      (rep0.total = 0 → rep0.percentage = 0)) :=
  analyze_percentage_bounds gw0 repo0 "2026-01-01T00:00:00Z" rep0 rfl cs0 (by decide)

/-- C4: `analyze` returns a top-level error exactly when the initial
repository-metadata fetch fails (with the formatted reason, and no report);
when the metadata fetch succeeds the run always completes with a report
containing one result per catalog check. -/
theorem analyze_error_propagation (g : Gateway) (repo : RepoIdentifier) (now : String) :
    (∀ e, g.fetch_repo_metadata = Except.error e →
      analyze g repo now = Except.error ("Impossible d'accéder au repo : " ++ e.display)) ∧
    (∀ md, g.fetch_repo_metadata = Except.ok md →
      (analyze g repo now).isOk = true ∧
      ∀ rep, analyze g repo now = Except.ok rep →
        (rep.categories.map (fun cs => cs.results.length)).sum = all_checks.length) := by
  refine ⟨?_, ?_⟩
  · intro e he
    unfold analyze analyze_with
    rw [he]
  · intro md hmd
    constructor
    · unfold analyze analyze_with
      rw [hmd]
      rfl
    · intro rep h
      unfold analyze analyze_with at h
      rw [hmd, Except.ok.injEq] at h
      subst h
      have hpart := filter_category_partition (fun _ => true) (all_checks.map (run_check g))
      simp only [List.filter_true, List.length_map] at hpart
      simp only [build_report, category_order, category_score, List.map_cons, List.map_nil,
        List.sum_cons, List.sum_nil]
      omega

/-- C4 witness: on the `gw_bad` snapshot `analyze` aborts with the formatted
404 reason; on the `gw0` snapshot it completes with 29 results. -/
theorem analyze_error_propagation_witness :
    analyze gw_bad repo0 "2026-01-01T00:00:00Z"
      = Except.error "Impossible d'accéder au repo : GitHub API error 404: HTTP 404: Not Found" ∧
    (analyze gw0 repo0 "2026-01-01T00:00:00Z").isOk = true ∧
    (rep0.categories.map (fun cs => cs.results.length)).sum = all_checks.length := by
  refine ⟨?_, ?_, ?_⟩
  · exact (analyze_error_propagation gw_bad repo0 "2026-01-01T00:00:00Z").1 err_404 rfl
  · exact ((analyze_error_propagation gw0 repo0 "2026-01-01T00:00:00Z").2 md0 rfl).1
  · exact ((analyze_error_propagation gw0 repo0 "2026-01-01T00:00:00Z").2 md0 rfl).2 rep0 rfl

/-- C8: a check whose id matches no implemented evaluator is dispatched to
the default arm and resolves to `Skipped` with the not-implemented reason,
and an analysis over a catalog containing such a check still completes with a
report. -/
theorem unknown_check_skipped (g : Gateway) (repo : RepoIdentifier) (now : String)
    (c : Check) (h : c.id ∉ implemented_check_ids) :
    run_check g c = CheckResult.skipped c "Check non implémenté" ∧
    (∀ md, g.fetch_repo_metadata = Except.ok md →
      (analyze_with (all_checks ++ [c]) g repo now).isOk = true) := by
  constructor
  · simp only [implemented_check_ids, List.mem_cons, List.not_mem_nil, or_false,
      not_or] at h
    unfold run_check
    split <;> simp_all
  · intro md hmd
    unfold analyze_with
    rw [hmd]
    rfl

/-- C8 witness: the concrete unimplemented id `"unknown_check"` resolves to
`Skipped("Check non implémenté")` and the extended-catalog run on `gw0` still
completes. -/
theorem unknown_check_skipped_witness :
    run_check gw0 unknown_check = CheckResult.skipped unknown_check "Check non implémenté" ∧
    (analyze_with (all_checks ++ [unknown_check]) gw0 repo0 "2026-01-01T00:00:00Z").isOk
      = true := by
  have h := unknown_check_skipped gw0 repo0 "2026-01-01T00:00:00Z" unknown_check (by decide)
  exact ⟨h.1, h.2 md0 rfl⟩

/-- C3 counterexample: on a snapshot whose workflow-file listing fails with a
network error (a Gateway error that is not the signal under test for a
keyword check), the pipeline-exists and tests-exist evaluators both report
`Failed`, not `Skipped`, refuting the claim at this concrete input. -/
theorem gateway_error_not_skipped_cex :
    gw0.fetch_workflow_files = Except.error err_net ∧
    (run_check gw0 pe_check).status = CheckStatus.Failed ∧
    ¬ (run_check gw0 pe_check).status = CheckStatus.Skipped ∧
    (run_check gw0 te_check).status = CheckStatus.Failed ∧
    ¬ (run_check gw0 te_check).status = CheckStatus.Skipped :=
  ⟨rfl, by decide, by decide, by decide, by decide⟩

/-- C3 (amended): a Gateway error while listing workflow files yields
`Failed` from the pipeline-exists check, and yields empty aggregated workflow
text for the keyword checks — the tests-exist check then reports `Failed`;
the run-history, commit-history and branch-protection (non-404) evaluators do
demote a Gateway error to `Skipped`, each with a fixed explanatory detail
rather than the error text. -/
theorem gateway_error_demotions (g : Gateway) (c : Check) :
    (∀ e, g.fetch_workflow_files = Except.error e →
      (check_pipeline_exists g c).status = CheckStatus.Failed ∧
      aggregate_workflow_content g = "" ∧
      (check_tests_exist g c).status = CheckStatus.Failed) ∧
    (∀ e, g.fetch_workflow_runs 5 = Except.error e →
      check_pipeline_green g c
        = CheckResult.skipped c
            "Impossible de récupérer les runs (repo privé ou pas de workflows)") ∧
    (∀ e, g.fetch_commits 20 = Except.error e →
      check_conventional_commits g c
        = CheckResult.skipped c "Impossible de récupérer les commits") ∧
    (∀ e, g.fetch_branch_protection "main" = Except.error e → e.status ≠ 404 →
      check_branch_protection g c
        = CheckResult.skipped c
            "Token requis pour vérifier la protection de branche (scope 'repo')") := by
  refine ⟨?_, ?_, ?_, ?_⟩
  · intro e he
    have hagg : aggregate_workflow_content g = "" := by
      unfold aggregate_workflow_content
      rw [he]
    refine ⟨?_, hagg, ?_⟩
    · unfold check_pipeline_exists
      rw [he]
      rfl
    · unfold check_tests_exist
      rw [hagg]
      rfl
  · intro e he
    unfold check_pipeline_green
    rw [he]
  · intro e he
    unfold check_conventional_commits
    rw [he]
  · intro e he hne
    have h4 : (e.status == 404) = false := by simpa using hne
    unfold check_branch_protection
    rw [he]
    simp [h4]

/-- C3 (amended) witness: the demotions hold concretely on the all-error
snapshot `gw0` (whose branch-protection error has status 0, not 404). -/
theorem gateway_error_demotions_witness :
    ((check_pipeline_exists gw0 pe_check).status = CheckStatus.Failed ∧
      aggregate_workflow_content gw0 = "" ∧
      (check_tests_exist gw0 te_check).status = CheckStatus.Failed) ∧
    check_pipeline_green gw0 pe_check
      = CheckResult.skipped pe_check
          "Impossible de récupérer les runs (repo privé ou pas de workflows)" ∧
    check_conventional_commits gw0 cc_check
      = CheckResult.skipped cc_check "Impossible de récupérer les commits" ∧
    check_branch_protection gw0 pe_check
      = CheckResult.skipped pe_check
          "Token requis pour vérifier la protection de branche (scope 'repo')" := by
  have h1 := (gateway_error_demotions gw0 pe_check).1 err_net rfl
  have h1t := (gateway_error_demotions gw0 te_check).1 err_net rfl
  have h2 := (gateway_error_demotions gw0 pe_check).2.1 err_net rfl
  have h3 := (gateway_error_demotions gw0 cc_check).2.2.1 err_net rfl
  have h4 := (gateway_error_demotions gw0 pe_check).2.2.2 err_net rfl (by decide)
  exact ⟨⟨h1.1, h1.2.1, h1t.2.2⟩, h2, h3, h4⟩

/-- C6: the conventional-commit check fetches the latest commits, excludes
merge-prefixed commits, counts the remaining subjects accepted by
`is_conventional_commit`, computes the integer percentage `matched*100/total`,
and returns `Passed` exactly when it is at least 80, `Failed` below 80 with
the exact ratio in the detail text, and `Skipped` when only merge commits
remain. -/
theorem conventional_commits_spec (g : Gateway) (c : Check) (commits : List CommitItem)
    (h : g.fetch_commits 20 = Except.ok commits) (hne : commits ≠ []) :
    (non_merge_commits commits = [] →
      check_conventional_commits g c
        = CheckResult.skipped c "Seuls des commits de merge trouvés") ∧
    (non_merge_commits commits ≠ [] →
      (80 ≤ conventional_pct (non_merge_commits commits) →
        check_conventional_commits g c
          = CheckResult.passed c
              (toString (conventional_count (non_merge_commits commits)) ++ "/"
                ++ toString (non_merge_commits commits).length
                ++ " commits conventionnels ("
                ++ toString (conventional_pct (non_merge_commits commits)) ++ "%)")) ∧
      (conventional_pct (non_merge_commits commits) < 80 →
        check_conventional_commits g c
          = CheckResult.failed c
              (toString (conventional_count (non_merge_commits commits)) ++ "/"
                ++ toString (non_merge_commits commits).length
                ++ " commits conventionnels ("
                ++ toString (conventional_pct (non_merge_commits commits)) ++ "% < 80%)")
              "Respectez la convention Conventional Commits : feat:, fix:, chore:, ci:, docs:, etc.")) := by
  cases commits with
  | nil => exact absurd rfl hne
  | cons c0 cs =>
    unfold check_conventional_commits
    rw [h]
    constructor
    · intro hempty
      have he : (non_merge_commits (c0 :: cs)).isEmpty = true := by
        rw [hempty]
        rfl
      simp [he]
    · intro hne2
      have he : (non_merge_commits (c0 :: cs)).isEmpty = false := by
        cases hnm : non_merge_commits (c0 :: cs) with
        | nil => exact absurd hnm hne2
        | cons a as => rfl
      constructor
      · intro hpct
        simp [he, hpct]
      · intro hpct
        have hnp : ¬ 80 ≤ conventional_pct (non_merge_commits (c0 :: cs)) := by omega
        simp [he, hnp]

/-- C6 witness: on the commit history `["feat: a", "Merge branch 'x'",
"fix(core)!: b", "update stuff"]` the merge commit is excluded, 2 of the 3
remaining commits match, and the check fails at exactly 66%. -/
theorem conventional_commits_spec_witness :
    check_conventional_commits gw_commits cc_check
      = CheckResult.failed cc_check "2/3 commits conventionnels (66% < 80%)"
          "Respectez la convention Conventional Commits : feat:, fix:, chore:, ci:, docs:, etc." := by
  have h := (conventional_commits_spec gw_commits cc_check c6_commits rfl
    (by decide)).2 (by decide)
  exact h.2 (by decide)

/-- C9: `parse_repo_url` accepts the short `owner/repo` form or a full URL
containing `github.com/owner/repo`, strips trailing slashes before splitting
and a trailing `.git` from the repo segment, ignores extra path segments, and
fails with a descriptive error whenever fewer than two path segments remain
after stripping (or when nothing follows `github.com`). -/
theorem parse_repo_url_spec (s : String) :
    (parse_parts s = Except.error "Invalid GitHub URL" →
      parse_repo_url s = Except.error "Invalid GitHub URL") ∧
    (∀ parts, parse_parts s = Except.ok parts → parts.length < 2 →
      parse_repo_url s = Except.error "URL must contain owner/repo") ∧
    (∀ parts, parse_parts s = Except.ok parts → 2 ≤ parts.length →
      parts.headD "" ≠ "" → strip_dot_git (parts.getD 1 "") ≠ "" →
      parse_repo_url s = Except.ok
        { owner := parts.headD "", repo := strip_dot_git (parts.getD 1 "") }) := by
  refine ⟨?_, ?_, ?_⟩
  · intro he
    unfold parse_repo_url
    rw [he]
  · intro parts hp hlen
    unfold parse_repo_url
    rw [hp]
    simp [hlen]
  · intro parts hp hlen h1 h2
    unfold parse_repo_url
    rw [hp]
    have hnl : ¬ parts.length < 2 := by omega
    simp [hnl, h1, h2]
    exact ⟨by simpa [List.headD_eq_head?] using h1,
      by simpa [List.getD_eq_getElem?_getD] using h2⟩

/-- C9 witness: a full URL with trailing slash, `.git` suffix and mixed-case
segments parses to its owner/repo pair, and a segment-poor input fails with
the descriptive error. -/
theorem parse_repo_url_spec_witness :
    parse_repo_url "https://github.com/Owner/Repo.git/"
      = Except.ok { owner := "Owner", repo := "Repo" } ∧
    parse_repo_url "not-a-url" = Except.error "URL must contain owner/repo" := by
  constructor
  · exact (parse_repo_url_spec "https://github.com/Owner/Repo.git/").2.2
      ["Owner", "Repo.git"] rfl (by decide) (by decide) (by decide)
  · exact (parse_repo_url_spec "not-a-url").2.1 ["not-a-url"] rfl (by decide)
